import Mathlib

/-!
Verification development for the gradelib repository.

The Python-facing wrapper class `RepoManager` and the module-level
`setup_async` function live in `src/python/gradelib/__init__.py` and are
embedded here directly.  The underlying Rust extension module
(`gradelib.gradelib`: the native `RepoManager`, called `_RustRepoManager`
in the wrapper, and the native `setup_async`) is not part of the source
tree, so its behaviour is modelled from the specification where a claim
depends on it; every such definition carries a doc comment starting with
`Modelled from the spec:`.
-/

namespace Gradelib

/-- Dynamic Python value, as far as the wrapper inspects it: the wrapper
only ever distinguishes `None`, lists and dicts (via `isinstance`), so a
small universe with strings and integers is enough to embed it. -/
inductive PyValue where
  | none
  | str (s : String)
  | int (n : Int)
  | list (xs : List PyValue)
  | dict (kvs : List (String × PyValue))
deriving Repr

/-- Python exception classes raised by the wrapper methods. -/
inductive PyErr where
  | runtimeError (msg : String)
  | typeError (msg : String)
  | valueError (msg : String)
deriving DecidableEq, Repr

/-- Result of the Python test `value is None`. -/
def PyValue.isNone : PyValue → Bool
  | .none => true
  | _ => false

/-- Result of the isinstance-style check `isinstance(result, dict)`. -/
def PyValue.isDict : PyValue → Bool
  | .dict _ => true
  | _ => false

/-- Result of the isinstance-style check `isinstance(result, list)`. -/
def PyValue.isList : PyValue → Bool
  | .list _ => true
  | _ => false

/-- Rendering of `type(result)` used in the wrapper TypeError messages. -/
def PyValue.typeName : PyValue → String
  | .none => "NoneType"
  | .str _ => "str"
  | .int _ => "int"
  | .list _ => "list"
  | .dict _ => "dict"

/-- One dispatched call to the underlying Rust manager; wrapper methods
record the calls they forward so that the claim that nothing is
dispatched on an uninitialized manager is expressible. -/
inductive RustCall where
  | cloneAll
  | cloneOne (url : String)
  | fetchCloneTasks
  | analyzeCommits (repo_path : String)
  | bulkBlame (repo_path : String) (file_paths : List String)
  | analyzeBranches (repo_urls : List String)
  | fetchCollaborators (repo_urls : List String) (max_pages : Option Nat)
  | fetchIssues (repo_urls : List String) (state : Option String) (max_pages : Option Nat)
  | fetchPullRequests (repo_urls : List String) (state : Option String) (max_pages : Option Nat)
  | fetchCodeReviews (repo_urls : List String) (max_pages : Option Nat)
  | fetchComments (repo_urls : List String) (comment_types : Option (List String)) (max_pages : Option Nat)
deriving DecidableEq, Repr

/-- The native Rust manager object, abstracted as an oracle: each method
is a function from the wrapper-supplied arguments to the awaited result
(a Python value or a raised exception).  The wrapper code in
`src/python/gradelib/__init__.py` treats it exactly this way. -/
structure RustManager where
  clone_all : Except PyErr PyValue
  clone : String → Except PyErr PyValue
  fetch_clone_tasks : Except PyErr PyValue
  analyze_commits : String → Except PyErr PyValue
  bulk_blame : String → List String → Except PyErr PyValue
  analyze_branches : List String → Except PyErr PyValue
  fetch_collaborators : List String → Option Nat → Except PyErr PyValue
  fetch_issues : List String → Option String → Option Nat → Except PyErr PyValue
  fetch_pull_requests : List String → Option String → Option Nat → Except PyErr PyValue
  fetch_code_reviews : List String → Option Nat → Except PyErr PyValue
  fetch_comments : List String → Option (List String) → Option Nat → Except PyErr PyValue

/-- The Python wrapper class state: the single attribute set by
`__init__` (to `None`) or by the `create` classmethod (to a Rust
manager).  The attribute is called `_rust_manager` in the source. -/
structure RepoManager where
  rust_manager : Option RustManager

/-- Observable outcome of one wrapper method call: the value returned or
exception raised, the calls dispatched to the Rust manager, and the
wrapper state after the call (the wrapper methods never reassign
`_rust_manager`, which the embedding makes explicit by returning it). -/
structure PyOutcome where
  result : Except PyErr PyValue
  calls : List RustCall
  finalState : RepoManager

/-- Message of the RuntimeError raised by every wrapper method when
`_rust_manager` is unset; the source text reads "RepoManager not
properly initialized. Use the create class method." -/
def initErrorMsg : String :=
  "RepoManager not properly initialized. Use the create class method."

/-- Modelled from the spec: `convert_clone_tasks` lives in the missing
`gradelib.types` module; per the spec it returns a read-only snapshot of
the registry mapping (URL to CloneTaskView), i.e. a value-preserving
copy of the fetched mapping. -/
def convert_clone_tasks (v : PyValue) : PyValue := v

/-- Embedding of `RepoManager.clone_all` from `src/python/gradelib/__init__.py`. -/
def RepoManager.clone_all (self : RepoManager) : PyOutcome :=
  match self.rust_manager with
  | Option.none => ⟨Except.error (PyErr.runtimeError initErrorMsg), [], self⟩
  | Option.some m => ⟨m.clone_all, [RustCall.cloneAll], self⟩

/-- Embedding of `RepoManager.clone` from `src/python/gradelib/__init__.py`. -/
def RepoManager.clone (self : RepoManager) (url : String) : PyOutcome :=
  match self.rust_manager with
  | Option.none => ⟨Except.error (PyErr.runtimeError initErrorMsg), [], self⟩
  | Option.some m => ⟨m.clone url, [RustCall.cloneOne url], self⟩

/-- Embedding of `RepoManager.fetch_clone_tasks`: after the
initialization check it awaits the Rust call, raises ValueError when the
result is `None`, and otherwise converts the tasks. -/
def RepoManager.fetch_clone_tasks (self : RepoManager) : PyOutcome :=
  match self.rust_manager with
  | Option.none => ⟨Except.error (PyErr.runtimeError initErrorMsg), [], self⟩
  | Option.some m =>
    match m.fetch_clone_tasks with
    | Except.error e => ⟨Except.error e, [RustCall.fetchCloneTasks], self⟩
    | Except.ok v =>
      if v.isNone then
        ⟨Except.error (PyErr.valueError "Failed to fetch clone tasks"),
          [RustCall.fetchCloneTasks], self⟩
      else
        ⟨Except.ok (convert_clone_tasks v), [RustCall.fetchCloneTasks], self⟩

/-- Embedding of `RepoManager.analyze_commits`: initialization check,
then the list isinstance check, then the unmodified result. -/
def RepoManager.analyze_commits (self : RepoManager) (repo_path : String) : PyOutcome :=
  match self.rust_manager with
  | Option.none => ⟨Except.error (PyErr.runtimeError initErrorMsg), [], self⟩
  | Option.some m =>
    match m.analyze_commits repo_path with
    | Except.error e => ⟨Except.error e, [RustCall.analyzeCommits repo_path], self⟩
    | Except.ok v =>
      if v.isList then ⟨Except.ok v, [RustCall.analyzeCommits repo_path], self⟩
      else
        ⟨Except.error (PyErr.typeError ("Expected List[CommitInfo], got " ++ v.typeName)),
          [RustCall.analyzeCommits repo_path], self⟩

/-- Embedding of `RepoManager.bulk_blame`: initialization check, then
the dict isinstance check, then the unmodified result. -/
def RepoManager.bulk_blame (self : RepoManager) (repo_path : String)
    (file_paths : List String) : PyOutcome :=
  match self.rust_manager with
  | Option.none => ⟨Except.error (PyErr.runtimeError initErrorMsg), [], self⟩
  | Option.some m =>
    match m.bulk_blame repo_path file_paths with
    | Except.error e => ⟨Except.error e, [RustCall.bulkBlame repo_path file_paths], self⟩
    | Except.ok v =>
      if v.isDict then ⟨Except.ok v, [RustCall.bulkBlame repo_path file_paths], self⟩
      else
        ⟨Except.error (PyErr.typeError
            ("Expected Dict[str, Union[List[BlameLineInfo], str]], got " ++ v.typeName)),
          [RustCall.bulkBlame repo_path file_paths], self⟩

/-- Embedding of `RepoManager.analyze_branches`. -/
def RepoManager.analyze_branches (self : RepoManager) (repo_urls : List String) : PyOutcome :=
  match self.rust_manager with
  | Option.none => ⟨Except.error (PyErr.runtimeError initErrorMsg), [], self⟩
  | Option.some m =>
    match m.analyze_branches repo_urls with
    | Except.error e => ⟨Except.error e, [RustCall.analyzeBranches repo_urls], self⟩
    | Except.ok v =>
      if v.isDict then ⟨Except.ok v, [RustCall.analyzeBranches repo_urls], self⟩
      else
        ⟨Except.error (PyErr.typeError
            ("Expected Dict[str, Union[List[BranchInfo], str]], got " ++ v.typeName)),
          [RustCall.analyzeBranches repo_urls], self⟩

/-- Embedding of `RepoManager.fetch_collaborators`. -/
def RepoManager.fetch_collaborators (self : RepoManager) (repo_urls : List String)
    (max_pages : Option Nat) : PyOutcome :=
  match self.rust_manager with
  | Option.none => ⟨Except.error (PyErr.runtimeError initErrorMsg), [], self⟩
  | Option.some m =>
    match m.fetch_collaborators repo_urls max_pages with
    | Except.error e => ⟨Except.error e, [RustCall.fetchCollaborators repo_urls max_pages], self⟩
    | Except.ok v =>
      if v.isDict then ⟨Except.ok v, [RustCall.fetchCollaborators repo_urls max_pages], self⟩
      else
        ⟨Except.error (PyErr.typeError
            ("Expected Dict[str, List[CollaboratorInfo]], got " ++ v.typeName)),
          [RustCall.fetchCollaborators repo_urls max_pages], self⟩

/-- Embedding of `RepoManager.fetch_issues`. -/
def RepoManager.fetch_issues (self : RepoManager) (repo_urls : List String)
    (state : Option String) (max_pages : Option Nat) : PyOutcome :=
  match self.rust_manager with
  | Option.none => ⟨Except.error (PyErr.runtimeError initErrorMsg), [], self⟩
  | Option.some m =>
    match m.fetch_issues repo_urls state max_pages with
    | Except.error e => ⟨Except.error e, [RustCall.fetchIssues repo_urls state max_pages], self⟩
    | Except.ok v =>
      if v.isDict then ⟨Except.ok v, [RustCall.fetchIssues repo_urls state max_pages], self⟩
      else
        ⟨Except.error (PyErr.typeError
            ("Expected Dict[str, Union[List[IssueInfo], str]], got " ++ v.typeName)),
          [RustCall.fetchIssues repo_urls state max_pages], self⟩

/-- Embedding of `RepoManager.fetch_pull_requests`. -/
def RepoManager.fetch_pull_requests (self : RepoManager) (repo_urls : List String)
    (state : Option String) (max_pages : Option Nat) : PyOutcome :=
  match self.rust_manager with
  | Option.none => ⟨Except.error (PyErr.runtimeError initErrorMsg), [], self⟩
  | Option.some m =>
    match m.fetch_pull_requests repo_urls state max_pages with
    | Except.error e =>
      ⟨Except.error e, [RustCall.fetchPullRequests repo_urls state max_pages], self⟩
    | Except.ok v =>
      if v.isDict then ⟨Except.ok v, [RustCall.fetchPullRequests repo_urls state max_pages], self⟩
      else
        ⟨Except.error (PyErr.typeError
            ("Expected Dict[str, Union[List[PullRequestInfo], str]], got " ++ v.typeName)),
          [RustCall.fetchPullRequests repo_urls state max_pages], self⟩

/-- Embedding of `RepoManager.fetch_code_reviews`. -/
def RepoManager.fetch_code_reviews (self : RepoManager) (repo_urls : List String)
    (max_pages : Option Nat) : PyOutcome :=
  match self.rust_manager with
  | Option.none => ⟨Except.error (PyErr.runtimeError initErrorMsg), [], self⟩
  | Option.some m =>
    match m.fetch_code_reviews repo_urls max_pages with
    | Except.error e => ⟨Except.error e, [RustCall.fetchCodeReviews repo_urls max_pages], self⟩
    | Except.ok v =>
      if v.isDict then ⟨Except.ok v, [RustCall.fetchCodeReviews repo_urls max_pages], self⟩
      else
        ⟨Except.error (PyErr.typeError
            ("Expected Dict[str, Union[Dict[str, List[CodeReviewInfo]], str]], got " ++ v.typeName)),
          [RustCall.fetchCodeReviews repo_urls max_pages], self⟩

/-- Embedding of `RepoManager.fetch_comments`. -/
def RepoManager.fetch_comments (self : RepoManager) (repo_urls : List String)
    (comment_types : Option (List String)) (max_pages : Option Nat) : PyOutcome :=
  match self.rust_manager with
  | Option.none => ⟨Except.error (PyErr.runtimeError initErrorMsg), [], self⟩
  | Option.some m =>
    match m.fetch_comments repo_urls comment_types max_pages with
    | Except.error e =>
      ⟨Except.error e, [RustCall.fetchComments repo_urls comment_types max_pages], self⟩
    | Except.ok v =>
      if v.isDict then
        ⟨Except.ok v, [RustCall.fetchComments repo_urls comment_types max_pages], self⟩
      else
        ⟨Except.error (PyErr.typeError
            ("Expected Dict[str, Union[List[CommentInfo], str]], got " ++ v.typeName)),
          [RustCall.fetchComments repo_urls comment_types max_pages], self⟩

/-- Modelled from the spec: the value stored in a batch result mapping
for one target, section 7 propagation policy: failing targets carry
error strings and succeeding targets carry records. -/
def resultValue : Except String PyValue → PyValue
  | Except.ok payload => payload
  | Except.error e => PyValue.str e

/-- Modelled from the spec: the entry list of the mapping a batch
operation builds, section 4.8: each fetcher fans out over the given
URLs and assembles the mapping URL to list-or-error. -/
def batchEntries (outcome : String → Except String PyValue) (urls : List String) :
    List (String × PyValue) :=
  urls.map fun u => (u, resultValue (outcome u))

/-- Modelled from the spec: a whole batch operation result, a Python
dict keyed by the requested URLs, section 4.9. -/
def runBatch (outcome : String → Except String PyValue) (urls : List String) : PyValue :=
  PyValue.dict (batchEntries outcome urls)

/-- Key list of an embedded Python dict. -/
def dictKeys (kvs : List (String × PyValue)) : List String :=
  kvs.map Prod.fst

/-- Lookup of a key in an embedded Python dict (first binding wins;
in the batch mappings duplicate URLs carry identical values, so this
matches Python dict construction, where the last binding wins). -/
def dictLookup (k : String) : List (String × PyValue) → Option PyValue
  | [] => Option.none
  | (k2, v) :: rest => if k2 = k then Option.some v else dictLookup k rest

/-- Modelled from the spec: one source line of a file at HEAD together
with the attribution facts git blame reports for it (the commit that
last touched the line, its author, and the line number the line had in
that introducing commit), section 3 BlameLineRecord inputs. -/
structure BlameSourceLine where
  commit_id : String
  author_name : String
  author_email : String
  orig_line_no : Nat
  line_content : String
deriving DecidableEq, Repr

/-- Modelled from the spec: the per-line blame record returned to the
caller, section 3: commit SHA, author, original line number, final line
number in current HEAD, decoded content. -/
structure BlameLineRecord where
  commit_id : String
  author_name : String
  author_email : String
  orig_line_no : Nat
  final_line_no : Nat
  line_content : String
deriving DecidableEq, Repr

/-- Modelled from the spec: a local clone as the Blame Engine sees it,
a resolver from relative file paths to the attributed lines of the file
at HEAD (absent when the path does not resolve against HEAD). -/
structure GitRepo where
  files : String → Option (List BlameSourceLine)

/-- Numbering pass of the Blame Engine: the line at position i of the
file receives final line number n + i, where n is the number given to
the first line of the remaining list. -/
def blameFrom (n : Nat) : List BlameSourceLine → List BlameLineRecord
  | [] => []
  | l :: rest =>
    ⟨l.commit_id, l.author_name, l.author_email, l.orig_line_no, n, l.line_content⟩ ::
      blameFrom (n + 1) rest

/-- Modelled from the spec: blame of one resolved file, section 4.5
step 2: one BlameLineRecord per line of the file, final line numbers
starting at 1, in ascending order. -/
def blameRecords (lines : List BlameSourceLine) : List BlameLineRecord :=
  blameFrom 1 lines

/-- Modelled from the spec: the Blame Engine on a single path, section
4.5 step 1: resolve the file against HEAD, record an error string when
it is missing, blame it otherwise. -/
def blameFile (repo : GitRepo) (path : String) : Except String (List BlameLineRecord) :=
  match repo.files path with
  | Option.none => Except.error ("File not found: " ++ path)
  | Option.some lines => Except.ok (blameRecords lines)

/-- Encoding of one blame record as the Python dict the caller sees;
field names as asserted by the tests in
`src/tests/test_github_provider.py`. -/
def encodeBlameRecord (r : BlameLineRecord) : PyValue :=
  PyValue.dict [("commit_id", PyValue.str r.commit_id),
    ("author_name", PyValue.str r.author_name),
    ("author_email", PyValue.str r.author_email),
    ("orig_line_no", PyValue.int r.orig_line_no),
    ("final_line_no", PyValue.int r.final_line_no),
    ("line_content", PyValue.str r.line_content)]

/-- Encoding of a successful blame of a whole file. -/
def encodeBlameList (rs : List BlameLineRecord) : PyValue :=
  PyValue.list (rs.map encodeBlameRecord)

/-- Per-path outcome the spec-modelled Rust manager stores in the
bulk_blame result mapping. -/
def blameValue (repo : GitRepo) (path : String) : Except String PyValue :=
  (blameFile repo path).map encodeBlameList

/-- Modelled from the spec: CloneState, section 3: tagged variant
Queued, Cloning with a progress percentage, Completed with the scratch
path, or Failed with an error message. -/
inductive CloneState where
  | queued
  | cloning (progress : Nat)
  | completed (scratchPath : String)
  | failed (errorMessage : String)
deriving DecidableEq, Repr

/-- Modelled from the spec: the updates the Progress Registry receives
for one URL, sections 3, 4.2 and 4.3: the Clone Engine starts a clone,
streams progress percentages, and finishes with success or failure; a
new clone call for the URL resets the entry. -/
inductive CloneEvent where
  | startCloning
  | progressUpdate (p : Nat)
  | finishSuccess (scratchPath : String)
  | finishFailure (errorMessage : String)
  | newCloneCall
deriving DecidableEq, Repr

/-- Modelled from the spec: the Progress Registry update rule for one
entry, section 4.2: only the Clone Engine transitions Queued to Cloning
to a terminal state, progress within Cloning is monotonic (updates with
a lower percentage than the current value are dropped), terminal states
are final until a new clone call resets the entry to Queued, and every
other update leaves the entry unchanged. -/
def applyEvent : CloneState → CloneEvent → CloneState
  | CloneState.queued, CloneEvent.startCloning => CloneState.cloning 0
  | CloneState.queued, CloneEvent.finishSuccess path => CloneState.completed path
  | CloneState.queued, CloneEvent.finishFailure msg => CloneState.failed msg
  | CloneState.cloning p, CloneEvent.progressUpdate q =>
    if q < p then CloneState.cloning p else CloneState.cloning q
  | CloneState.cloning _, CloneEvent.finishSuccess path => CloneState.completed path
  | CloneState.cloning _, CloneEvent.finishFailure msg => CloneState.failed msg
  | CloneState.completed _, CloneEvent.newCloneCall => CloneState.queued
  | CloneState.failed _, CloneEvent.newCloneCall => CloneState.queued
  | s, _ => s

/-- States an observer sees for one URL after each registry update, in
order, given the starting state. -/
def statesAfter (s : CloneState) : List CloneEvent → List CloneState
  | [] => []
  | e :: es => applyEvent s e :: statesAfter (applyEvent s e) es

/-- Allowed successor relation of the timeline regex
Queued (Cloning p)* (Completed | Failed): the phase never moves
backwards, progress within Cloning never decreases, and a terminal
state only repeats itself (same tag and same payload). -/
def follows : CloneState → CloneState → Prop
  | CloneState.queued, _ => True
  | CloneState.cloning p, CloneState.cloning q => p ≤ q
  | CloneState.cloning _, CloneState.completed _ => True
  | CloneState.cloning _, CloneState.failed _ => True
  | CloneState.completed a, CloneState.completed b => a = b
  | CloneState.failed a, CloneState.failed b => a = b
  | _, _ => False

instance followsDecidable : DecidableRel follows := by
  intro s t
  cases s <;> cases t <;> simp only [follows] <;> infer_instance

/-- Modelled from the spec: CommitRecord, section 3. -/
structure CommitRecord where
  sha : String
  repo_name : String
  message : String
  author_name : String
  author_email : String
  author_timestamp : Int
  author_offset : Int
  committer_name : String
  committer_email : String
  committer_timestamp : Int
  committer_offset : Int
  additions : Nat
  deletions : Nat
  is_merge : Bool
deriving DecidableEq, Repr

/-- Modelled from the spec: the output order of the Commit Walker,
section 4.4 step 4: author timestamp descending, ties broken by SHA in
lexicographic order. -/
def commitBefore (a b : CommitRecord) : Prop :=
  b.author_timestamp < a.author_timestamp ∨
    (a.author_timestamp = b.author_timestamp ∧ a.sha ≤ b.sha)

instance commitBeforeDecidable : DecidableRel commitBefore := by
  intro a b
  simp only [commitBefore]
  infer_instance

instance commitBeforeTotal : IsTotal CommitRecord commitBefore where
  total a b := by
    rcases lt_trichotomy a.author_timestamp b.author_timestamp with h | h | h
    · exact Or.inr (Or.inl h)
    · rcases le_total a.sha b.sha with hs | hs
      · exact Or.inl (Or.inr ⟨h, hs⟩)
      · exact Or.inr (Or.inr ⟨h.symm, hs⟩)
    · exact Or.inl (Or.inl h)

instance commitBeforeTrans : IsTrans CommitRecord commitBefore where
  trans a b c hab hbc := by
    rcases hab with h1 | ⟨h1, hs1⟩
    · rcases hbc with h2 | ⟨h2, _⟩
      · exact Or.inl (h2.trans h1)
      · exact Or.inl (h2 ▸ h1)
    · rcases hbc with h2 | ⟨h2, hs2⟩
      · exact Or.inl (h1 ▸ h2)
      · exact Or.inr ⟨h1.trans h2, hs1.trans hs2⟩

/-- Modelled from the spec: the final sorting pass of the Commit
Walker over the records gathered from the shards, section 4.4 step 4. -/
def sortCommits (l : List CommitRecord) : List CommitRecord :=
  List.insertionSort commitBefore l

/-- Modelled from the spec: the pagination loop of the HTTP Fetcher
Core for one URL, section 4.7.  The server is a finite chain of pages
(page i reports a next cursor exactly when a page i+1 exists).  The
client issues one request per collected page and stops when the budget
given by max_pages is exhausted or the server reports no next page;
a budget of `Option.none` means unbounded. -/
def paginate : List (List PyValue) → Option Nat → List (List PyValue)
  | _, Option.some 0 => []
  | [], _ => []
  | p :: rest, Option.some (k + 1) => p :: paginate rest (Option.some k)
  | p :: rest, Option.none => p :: paginate rest Option.none

/-- Modelled from the spec: the process-wide async runtime state that
the native setup_async primitive initializes, sections 5 and 9. -/
structure AsyncRuntimeState where
  initialized : Bool
deriving DecidableEq, Repr

/-- Outcome of a wrapper method on an uninitialized manager: the
RuntimeError is raised, nothing is dispatched, and the state is the
untouched input state. -/
def raisedUninit (self : RepoManager) : PyOutcome :=
  ⟨Except.error (PyErr.runtimeError initErrorMsg), [], self⟩

/-- Modelled from the spec: the setup_async primitive, section 9: a
single explicit initialization primitive whose effect (marking the
process-wide runtime initialized) is idempotent; it returns None and
raises nothing. -/
def setup_async (_st : AsyncRuntimeState) : AsyncRuntimeState × Except PyErr PyValue :=
  ({ initialized := true }, Except.ok PyValue.none)

/-- Modelled from the spec: the behaviour of the native Rust manager
behind an initialized wrapper, abstracted over per-target outcome
oracles: each batch operation fans its URL list out, isolates
per-target failures as error strings, and assembles the result mapping
(sections 4.7 to 4.9); bulk_blame runs the Blame Engine of section 4.5
over the per-path oracle given by `repos`. -/
structure SpecBackends where
  collabOutcome : Option Nat → String → Except String PyValue
  issuesOutcome : Option String → Option Nat → String → Except String PyValue
  pullsOutcome : Option String → Option Nat → String → Except String PyValue
  reviewsOutcome : Option Nat → String → Except String PyValue
  commentsOutcome : Option (List String) → Option Nat → String → Except String PyValue
  branchesOutcome : String → Except String PyValue
  repos : String → GitRepo
  commitsResult : String → Except PyErr PyValue
  cloneResult : String → Except PyErr PyValue
  cloneAllResult : Except PyErr PyValue
  cloneTasksResult : Except PyErr PyValue

/-- Modelled from the spec: the native Rust manager assembled from the
backends; batch operations never fail as a whole for per-target
reasons, so each returns `Except.ok` of the assembled mapping. -/
def specRust (b : SpecBackends) : RustManager where
  clone_all := b.cloneAllResult
  clone := b.cloneResult
  fetch_clone_tasks := b.cloneTasksResult
  analyze_commits := b.commitsResult
  bulk_blame := fun repo_path file_paths =>
    Except.ok (runBatch (blameValue (b.repos repo_path)) file_paths)
  analyze_branches := fun urls => Except.ok (runBatch b.branchesOutcome urls)
  fetch_collaborators := fun urls mp => Except.ok (runBatch (b.collabOutcome mp) urls)
  fetch_issues := fun urls st mp => Except.ok (runBatch (b.issuesOutcome st mp) urls)
  fetch_pull_requests := fun urls st mp => Except.ok (runBatch (b.pullsOutcome st mp) urls)
  fetch_code_reviews := fun urls mp => Except.ok (runBatch (b.reviewsOutcome mp) urls)
  fetch_comments := fun urls ct mp => Except.ok (runBatch (b.commentsOutcome ct mp) urls)

/-- Manager as produced by `RepoManager.__init__` alone (the `create`
classmethod never ran). -/
def nullManager : RepoManager := ⟨Option.none⟩

/-- Concrete Rust manager for exercising the wrapper: most operations
return well-typed containers, fetch_issues returns an int so the
TypeError branch is exercised. -/
def sampleRust : RustManager where
  clone_all := Except.ok PyValue.none
  clone := fun _ => Except.ok PyValue.none
  fetch_clone_tasks := Except.ok (PyValue.dict [])
  analyze_commits := fun _ => Except.ok (PyValue.list [])
  bulk_blame := fun _ _ => Except.ok (PyValue.dict [])
  analyze_branches := fun _ => Except.ok (PyValue.dict [])
  fetch_collaborators := fun _ _ => Except.ok (PyValue.dict [])
  fetch_issues := fun _ _ _ => Except.ok (PyValue.int 3)
  fetch_pull_requests := fun _ _ _ => Except.ok (PyValue.dict [])
  fetch_code_reviews := fun _ _ => Except.ok (PyValue.dict [])
  fetch_comments := fun _ _ _ => Except.ok (PyValue.dict [])

/-- Manager initialized with the concrete sample Rust manager. -/
def sampleManager : RepoManager := ⟨Option.some sampleRust⟩

/-- Concrete blame source line for the sample repository. -/
def sampleLine : BlameSourceLine :=
  ⟨"a1b2c3", "Ada", "ada@example.com", 1, "hello"⟩

/-- Concrete repository whose HEAD resolves exactly one file. -/
def sampleRepo : GitRepo :=
  ⟨fun p => if p = "README.md" then Option.some [sampleLine] else Option.none⟩

/-- Concrete backends: the URL ending in bad fails with a 404 error
string, everything else succeeds with an empty record list. -/
def sampleBackends : SpecBackends where
  collabOutcome := fun _ u =>
    if u = "https://github.com/o/bad" then Except.error "404 Not Found"
    else Except.ok (PyValue.list [])
  issuesOutcome := fun _ _ u =>
    if u = "https://github.com/o/bad" then Except.error "404 Not Found"
    else Except.ok (PyValue.list [])
  pullsOutcome := fun _ _ u =>
    if u = "https://github.com/o/bad" then Except.error "404 Not Found"
    else Except.ok (PyValue.list [])
  reviewsOutcome := fun _ u =>
    if u = "https://github.com/o/bad" then Except.error "404 Not Found"
    else Except.ok (PyValue.dict [])
  commentsOutcome := fun _ _ u =>
    if u = "https://github.com/o/bad" then Except.error "404 Not Found"
    else Except.ok (PyValue.list [])
  branchesOutcome := fun u =>
    if u = "https://github.com/o/bad" then Except.error "404 Not Found"
    else Except.ok (PyValue.list [])
  repos := fun _ => sampleRepo
  commitsResult := fun _ => Except.ok (PyValue.list [])
  cloneResult := fun _ => Except.ok PyValue.none
  cloneAllResult := Except.ok PyValue.none
  cloneTasksResult := Except.ok (PyValue.dict [])

/-- Manager initialized with the spec-modelled Rust manager over the
sample backends. -/
def sampleSpecManager : RepoManager := ⟨Option.some (specRust sampleBackends)⟩

/-- Concrete repository with a two-line file. -/
def sampleTwoLineRepo : GitRepo :=
  ⟨fun p => if p = "main.py" then Option.some [sampleLine, sampleLine] else Option.none⟩

/-- Commit record with the given SHA and author timestamp; the other
fields are fixed. -/
def mkCommit (sha : String) (ts : Int) : CommitRecord :=
  ⟨sha, "repo", "msg", "Ada", "ada@example.com", ts, 0, "Ada", "ada@example.com", ts, 0, 0, 0, false⟩

theorem dictKeys_batchEntries (outcome : String → Except String PyValue)
    (urls : List String) : dictKeys (batchEntries outcome urls) = urls := by
  simp only [dictKeys, batchEntries, List.map_map]
  exact List.map_id urls

theorem dictLookup_batchEntries (outcome : String → Except String PyValue)
    (urls : List String) (u : String) (hu : u ∈ urls) :
    dictLookup u (batchEntries outcome urls) = Option.some (resultValue (outcome u)) := by
  induction urls with
  | nil => cases hu
  | cons a rest ih =>
    simp only [batchEntries, List.map_cons, dictLookup]
    by_cases ha : a = u
    · subst ha; simp
    · have : u ∈ rest := by
        rcases List.mem_cons.mp hu with h | h
        · exact absurd h.symm ha
        · exact h
      simpa [ha] using ih this

theorem blameFrom_map_final (n : Nat) (lines : List BlameSourceLine) :
    (blameFrom n lines).map (fun r => r.final_line_no) = List.range' n lines.length := by
  induction lines generalizing n with
  | nil => rfl
  | cons l rest ih => simp [blameFrom, List.range'_succ, ih]

theorem blameFrom_length (n : Nat) (lines : List BlameSourceLine) :
    (blameFrom n lines).length = lines.length := by
  induction lines generalizing n with
  | nil => rfl
  | cons l rest ih => simp [blameFrom, ih]

theorem follows_applyEvent (s : CloneState) (e : CloneEvent)
    (he : e ≠ CloneEvent.newCloneCall) : follows s (applyEvent s e) := by
  cases s with
  | queued => cases e <;> simp [applyEvent, follows]
  | cloning p =>
    cases e with
    | progressUpdate q =>
      by_cases hq : q < p
      · simp [applyEvent, follows, hq]
      · simp [applyEvent, follows, hq, Nat.le_of_not_lt hq]
    | _ => simp [applyEvent, follows]
  | completed a => cases e <;> simp_all [applyEvent, follows]
  | failed a => cases e <;> simp_all [applyEvent, follows]

theorem chain_statesAfter (s : CloneState) (es : List CloneEvent)
    (h : CloneEvent.newCloneCall ∉ es) : List.Chain follows s (statesAfter s es) := by
  induction es generalizing s with
  | nil => exact List.Chain.nil
  | cons e es ih =>
    have he : e ≠ CloneEvent.newCloneCall := fun heq => h (heq ▸ List.mem_cons_self e es)
    exact List.Chain.cons (follows_applyEvent s e he)
      (ih (applyEvent s e) fun hm => h (List.mem_cons_of_mem e hm))

theorem commitBefore_antisymm_on {a b : CommitRecord}
    (hab : commitBefore a b) (hba : commitBefore b a) :
    a.author_timestamp = b.author_timestamp ∧ a.sha = b.sha := by
  rcases hab with h1 | ⟨h1, hs1⟩
  · rcases hba with h2 | ⟨h2, _⟩
    · exact absurd (h1.trans h2) (lt_irrefl _)
    · exact absurd (h2 ▸ h1) (lt_irrefl _)
  · rcases hba with h2 | ⟨h2, hs2⟩
    · exact absurd (h1 ▸ h2) (lt_irrefl _)
    · exact ⟨h1, le_antisymm hs1 hs2⟩

theorem sorted_perm_shaInj_eq :
    ∀ {l₁ l₂ : List CommitRecord}, l₁.Perm l₂ →
      l₁.Sorted commitBefore → l₂.Sorted commitBefore →
      (∀ a ∈ l₁, ∀ b ∈ l₁, a.sha = b.sha → a = b) → l₁ = l₂
  | [], l₂, hp, _, _, _ => hp.nil_eq
  | a :: t₁, [], hp, _, _, _ => absurd (hp.symm.nil_eq) (by simp)
  | a :: t₁, b :: t₂, hp, hs₁, hs₂, hinj => by
    have hab : commitBefore a b := by
      have hb : b ∈ a :: t₁ := hp.mem_iff.mpr (List.mem_cons_self b t₂)
      rcases List.mem_cons.mp hb with h | h
      · subst h; exact Or.inr ⟨rfl, le_refl _⟩
      · exact List.rel_of_sorted_cons hs₁ b h
    have hba : commitBefore b a := by
      have ha : a ∈ b :: t₂ := hp.mem_iff.mp (List.mem_cons_self a t₁)
      rcases List.mem_cons.mp ha with h | h
      · subst h; exact Or.inr ⟨rfl, le_refl _⟩
      · exact List.rel_of_sorted_cons hs₂ a h
    have hb₁ : b ∈ a :: t₁ := hp.mem_iff.mpr (List.mem_cons_self b t₂)
    have heq : a = b :=
      hinj a (List.mem_cons_self a t₁) b hb₁ (commitBefore_antisymm_on hab hba).2
    subst heq
    have ht : t₁ = t₂ :=
      sorted_perm_shaInj_eq hp.cons_inv hs₁.of_cons hs₂.of_cons
        fun x hx y hy => hinj x (List.mem_cons_of_mem a hx) y (List.mem_cons_of_mem a hy)
    rw [ht]

theorem paginate_length_le (pages : List (List PyValue)) (k : Nat) :
    (paginate pages (Option.some k)).length ≤ k := by
  induction pages generalizing k with
  | nil => cases k <;> simp [paginate]
  | cons p rest ih =>
    cases k with
    | zero => simp [paginate]
    | succ k => simpa [paginate] using ih k

theorem paginate_unbounded (pages : List (List PyValue)) :
    paginate pages Option.none = pages := by
  induction pages with
  | nil => rfl
  | cons p rest ih => simp [paginate, ih]

theorem paginate_take (pages : List (List PyValue)) (k : Nat) :
    paginate pages (Option.some k) = pages.take k := by
  induction pages generalizing k with
  | nil => cases k <;> rfl
  | cons p rest ih => cases k with
    | zero => rfl
    | succ k => simp [paginate, ih]

/-- Claim C1: every RepoManager operation (clone, clone_all,
fetch_clone_tasks, analyze_commits, bulk_blame, analyze_branches and
each domain fetcher), invoked on a manager whose underlying Rust
manager is absent, raises RuntimeError synchronously, dispatches no
call to the underlying manager, and leaves the manager state
unchanged. -/
theorem uninitialized_manager_raises (self : RepoManager)
    (h : self.rust_manager = Option.none) (url repo_path : String)
    (file_paths repo_urls : List String) (state : Option String)
    (max_pages : Option Nat) (comment_types : Option (List String)) :
    self.clone_all = raisedUninit self ∧
    self.clone url = raisedUninit self ∧
    self.fetch_clone_tasks = raisedUninit self ∧
    self.analyze_commits repo_path = raisedUninit self ∧
    self.bulk_blame repo_path file_paths = raisedUninit self ∧
    self.analyze_branches repo_urls = raisedUninit self ∧
    self.fetch_collaborators repo_urls max_pages = raisedUninit self ∧
    self.fetch_issues repo_urls state max_pages = raisedUninit self ∧
    self.fetch_pull_requests repo_urls state max_pages = raisedUninit self ∧
    self.fetch_code_reviews repo_urls max_pages = raisedUninit self ∧
    self.fetch_comments repo_urls comment_types max_pages = raisedUninit self := by
  obtain ⟨rm⟩ := self
  cases rm with
  | none => exact ⟨rfl, rfl, rfl, rfl, rfl, rfl, rfl, rfl, rfl, rfl, rfl⟩
  | some m => exact Option.noConfusion h

/-- Witness for claim C1 at a concrete uninitialized manager. -/
theorem uninitialized_manager_raises_check :
    nullManager.clone_all = raisedUninit nullManager ∧
    nullManager.clone "https://github.com/o/r" = raisedUninit nullManager ∧
    nullManager.fetch_clone_tasks = raisedUninit nullManager ∧
    nullManager.analyze_commits "p" = raisedUninit nullManager ∧
    nullManager.bulk_blame "p" [] = raisedUninit nullManager ∧
    nullManager.analyze_branches [] = raisedUninit nullManager ∧
    nullManager.fetch_collaborators [] Option.none = raisedUninit nullManager ∧
    nullManager.fetch_issues [] Option.none Option.none = raisedUninit nullManager ∧
    nullManager.fetch_pull_requests [] Option.none Option.none = raisedUninit nullManager ∧
    nullManager.fetch_code_reviews [] Option.none = raisedUninit nullManager ∧
    nullManager.fetch_comments [] Option.none Option.none = raisedUninit nullManager :=
  uninitialized_manager_raises nullManager rfl "https://github.com/o/r" "p" [] []
    Option.none Option.none Option.none

/-- Claim C10: on an initialized manager, when the underlying value is
not of the documented container type (a list for analyze_commits, a
dict for bulk_blame, analyze_branches and the domain fetchers) the
wrapper raises TypeError, and when the operation returns normally the
returned value is exactly the underlying value. -/
theorem wrapper_container_type_check
    (self : RepoManager) (m : RustManager) (h : self.rust_manager = Option.some m)
    (repo_path : String) (file_paths repo_urls : List String) (state : Option String)
    (max_pages : Option Nat) (comment_types : Option (List String))
    (vc vb vbr vcol vis vpr vcr vcm : PyValue)
    (hc : m.analyze_commits repo_path = Except.ok vc)
    (hb : m.bulk_blame repo_path file_paths = Except.ok vb)
    (hbr : m.analyze_branches repo_urls = Except.ok vbr)
    (hcol : m.fetch_collaborators repo_urls max_pages = Except.ok vcol)
    (his : m.fetch_issues repo_urls state max_pages = Except.ok vis)
    (hpr : m.fetch_pull_requests repo_urls state max_pages = Except.ok vpr)
    (hcr : m.fetch_code_reviews repo_urls max_pages = Except.ok vcr)
    (hcm : m.fetch_comments repo_urls comment_types max_pages = Except.ok vcm) :
    ((vc.isList = true → (self.analyze_commits repo_path).result = Except.ok vc) ∧
      (vc.isList = false → (self.analyze_commits repo_path).result = Except.error
        (PyErr.typeError ("Expected List[CommitInfo], got " ++ vc.typeName)))) ∧
    ((vb.isDict = true → (self.bulk_blame repo_path file_paths).result = Except.ok vb) ∧
      (vb.isDict = false → (self.bulk_blame repo_path file_paths).result = Except.error
        (PyErr.typeError ("Expected Dict[str, Union[List[BlameLineInfo], str]], got " ++ vb.typeName)))) ∧
    ((vbr.isDict = true → (self.analyze_branches repo_urls).result = Except.ok vbr) ∧
      (vbr.isDict = false → (self.analyze_branches repo_urls).result = Except.error
        (PyErr.typeError ("Expected Dict[str, Union[List[BranchInfo], str]], got " ++ vbr.typeName)))) ∧
    ((vcol.isDict = true → (self.fetch_collaborators repo_urls max_pages).result = Except.ok vcol) ∧
      (vcol.isDict = false → (self.fetch_collaborators repo_urls max_pages).result = Except.error
        (PyErr.typeError ("Expected Dict[str, List[CollaboratorInfo]], got " ++ vcol.typeName)))) ∧
    ((vis.isDict = true → (self.fetch_issues repo_urls state max_pages).result = Except.ok vis) ∧
      (vis.isDict = false → (self.fetch_issues repo_urls state max_pages).result = Except.error
        (PyErr.typeError ("Expected Dict[str, Union[List[IssueInfo], str]], got " ++ vis.typeName)))) ∧
    ((vpr.isDict = true → (self.fetch_pull_requests repo_urls state max_pages).result = Except.ok vpr) ∧
      (vpr.isDict = false → (self.fetch_pull_requests repo_urls state max_pages).result = Except.error
        (PyErr.typeError ("Expected Dict[str, Union[List[PullRequestInfo], str]], got " ++ vpr.typeName)))) ∧
    ((vcr.isDict = true → (self.fetch_code_reviews repo_urls max_pages).result = Except.ok vcr) ∧
      (vcr.isDict = false → (self.fetch_code_reviews repo_urls max_pages).result = Except.error
        (PyErr.typeError ("Expected Dict[str, Union[Dict[str, List[CodeReviewInfo]], str]], got " ++ vcr.typeName)))) ∧
    ((vcm.isDict = true → (self.fetch_comments repo_urls comment_types max_pages).result = Except.ok vcm) ∧
      (vcm.isDict = false → (self.fetch_comments repo_urls comment_types max_pages).result = Except.error
        (PyErr.typeError ("Expected Dict[str, Union[List[CommentInfo], str]], got " ++ vcm.typeName)))) := by
  obtain ⟨rm⟩ := self
  cases rm with
  | none => exact Option.noConfusion h
  | some m0 =>
    have hm : m0 = m := Option.some.injEq m0 m ▸ h
    subst hm
    refine ⟨⟨fun hv => ?_, fun hv => ?_⟩, ⟨fun hv => ?_, fun hv => ?_⟩,
      ⟨fun hv => ?_, fun hv => ?_⟩, ⟨fun hv => ?_, fun hv => ?_⟩,
      ⟨fun hv => ?_, fun hv => ?_⟩, ⟨fun hv => ?_, fun hv => ?_⟩,
      ⟨fun hv => ?_, fun hv => ?_⟩, ⟨fun hv => ?_, fun hv => ?_⟩⟩ <;>
    simp_all [RepoManager.analyze_commits, RepoManager.bulk_blame,
      RepoManager.analyze_branches, RepoManager.fetch_collaborators,
      RepoManager.fetch_issues, RepoManager.fetch_pull_requests,
      RepoManager.fetch_code_reviews, RepoManager.fetch_comments]

/-- Witness for claim C10 at the concrete sample manager. -/
theorem wrapper_container_type_check_check :
    (((PyValue.list []).isList = true →
        (sampleManager.analyze_commits "p").result = Except.ok (PyValue.list [])) ∧
      ((PyValue.list []).isList = false →
        (sampleManager.analyze_commits "p").result = Except.error
          (PyErr.typeError ("Expected List[CommitInfo], got " ++ (PyValue.list []).typeName)))) ∧
    (((PyValue.dict []).isDict = true →
        (sampleManager.bulk_blame "p" []).result = Except.ok (PyValue.dict [])) ∧
      ((PyValue.dict []).isDict = false →
        (sampleManager.bulk_blame "p" []).result = Except.error
          (PyErr.typeError ("Expected Dict[str, Union[List[BlameLineInfo], str]], got " ++
            (PyValue.dict []).typeName)))) ∧
    (((PyValue.dict []).isDict = true →
        (sampleManager.analyze_branches []).result = Except.ok (PyValue.dict [])) ∧
      ((PyValue.dict []).isDict = false →
        (sampleManager.analyze_branches []).result = Except.error
          (PyErr.typeError ("Expected Dict[str, Union[List[BranchInfo], str]], got " ++
            (PyValue.dict []).typeName)))) ∧
    (((PyValue.dict []).isDict = true →
        (sampleManager.fetch_collaborators [] Option.none).result = Except.ok (PyValue.dict [])) ∧
      ((PyValue.dict []).isDict = false →
        (sampleManager.fetch_collaborators [] Option.none).result = Except.error
          (PyErr.typeError ("Expected Dict[str, List[CollaboratorInfo]], got " ++
            (PyValue.dict []).typeName)))) ∧
    (((PyValue.int 3).isDict = true →
        (sampleManager.fetch_issues [] Option.none Option.none).result = Except.ok (PyValue.int 3)) ∧
      ((PyValue.int 3).isDict = false →
        (sampleManager.fetch_issues [] Option.none Option.none).result = Except.error
          (PyErr.typeError ("Expected Dict[str, Union[List[IssueInfo], str]], got " ++
            (PyValue.int 3).typeName)))) ∧
    (((PyValue.dict []).isDict = true →
        (sampleManager.fetch_pull_requests [] Option.none Option.none).result =
          Except.ok (PyValue.dict [])) ∧
      ((PyValue.dict []).isDict = false →
        (sampleManager.fetch_pull_requests [] Option.none Option.none).result = Except.error
          (PyErr.typeError ("Expected Dict[str, Union[List[PullRequestInfo], str]], got " ++
            (PyValue.dict []).typeName)))) ∧
    (((PyValue.dict []).isDict = true →
        (sampleManager.fetch_code_reviews [] Option.none).result = Except.ok (PyValue.dict [])) ∧
      ((PyValue.dict []).isDict = false →
        (sampleManager.fetch_code_reviews [] Option.none).result = Except.error
          (PyErr.typeError ("Expected Dict[str, Union[Dict[str, List[CodeReviewInfo]], str]], got " ++
            (PyValue.dict []).typeName)))) ∧
    (((PyValue.dict []).isDict = true →
        (sampleManager.fetch_comments [] Option.none Option.none).result =
          Except.ok (PyValue.dict [])) ∧
      ((PyValue.dict []).isDict = false →
        (sampleManager.fetch_comments [] Option.none Option.none).result = Except.error
          (PyErr.typeError ("Expected Dict[str, Union[List[CommentInfo], str]], got " ++
            (PyValue.dict []).typeName)))) :=
  wrapper_container_type_check sampleManager sampleRust rfl "p" [] [] Option.none
    Option.none Option.none (PyValue.list []) (PyValue.dict []) (PyValue.dict [])
    (PyValue.dict []) (PyValue.int 3) (PyValue.dict []) (PyValue.dict []) (PyValue.dict [])
    rfl rfl rfl rfl rfl rfl rfl rfl

/-- Claim C2: every batch operation (the five domain fetchers and
analyze_branches) on an initialized manager returns, without raising,
the mapping assembled from the per-target outcomes, in which a failing
URL carries its error string and a succeeding URL carries its records;
fetch_collaborators behaves exactly like the other fetchers. -/
theorem batch_per_target_isolation
    (b : SpecBackends) (self : RepoManager)
    (h : self.rust_manager = Option.some (specRust b))
    (repo_urls : List String) (u : String) (hu : u ∈ repo_urls)
    (state : Option String) (max_pages : Option Nat)
    (comment_types : Option (List String)) (er : String) (pay : PyValue) :
    resultValue (Except.error er) = PyValue.str er ∧
    resultValue (Except.ok pay) = pay ∧
    (self.fetch_collaborators repo_urls max_pages).result =
      Except.ok (runBatch (b.collabOutcome max_pages) repo_urls) ∧
    dictLookup u (batchEntries (b.collabOutcome max_pages) repo_urls) =
      Option.some (resultValue (b.collabOutcome max_pages u)) ∧
    (self.fetch_issues repo_urls state max_pages).result =
      Except.ok (runBatch (b.issuesOutcome state max_pages) repo_urls) ∧
    dictLookup u (batchEntries (b.issuesOutcome state max_pages) repo_urls) =
      Option.some (resultValue (b.issuesOutcome state max_pages u)) ∧
    (self.fetch_pull_requests repo_urls state max_pages).result =
      Except.ok (runBatch (b.pullsOutcome state max_pages) repo_urls) ∧
    dictLookup u (batchEntries (b.pullsOutcome state max_pages) repo_urls) =
      Option.some (resultValue (b.pullsOutcome state max_pages u)) ∧
    (self.fetch_code_reviews repo_urls max_pages).result =
      Except.ok (runBatch (b.reviewsOutcome max_pages) repo_urls) ∧
    dictLookup u (batchEntries (b.reviewsOutcome max_pages) repo_urls) =
      Option.some (resultValue (b.reviewsOutcome max_pages u)) ∧
    (self.fetch_comments repo_urls comment_types max_pages).result =
      Except.ok (runBatch (b.commentsOutcome comment_types max_pages) repo_urls) ∧
    dictLookup u (batchEntries (b.commentsOutcome comment_types max_pages) repo_urls) =
      Option.some (resultValue (b.commentsOutcome comment_types max_pages u)) ∧
    (self.analyze_branches repo_urls).result =
      Except.ok (runBatch b.branchesOutcome repo_urls) ∧
    dictLookup u (batchEntries b.branchesOutcome repo_urls) =
      Option.some (resultValue (b.branchesOutcome u)) := by
  obtain ⟨rm⟩ := self
  cases rm with
  | none => exact Option.noConfusion h
  | some m0 =>
    have hm : m0 = specRust b := Option.some.injEq m0 (specRust b) ▸ h
    subst hm
    exact ⟨rfl, rfl, rfl, dictLookup_batchEntries _ _ u hu,
      rfl, dictLookup_batchEntries _ _ u hu,
      rfl, dictLookup_batchEntries _ _ u hu,
      rfl, dictLookup_batchEntries _ _ u hu,
      rfl, dictLookup_batchEntries _ _ u hu,
      rfl, dictLookup_batchEntries _ _ u hu⟩

/-- Witness for claim C2 at the sample backends, looking up the
failing URL of a two-URL batch. -/
theorem batch_per_target_isolation_check :
    resultValue (Except.error "boom") = PyValue.str "boom" ∧
    resultValue (Except.ok (PyValue.int 1)) = PyValue.int 1 ∧
    (sampleSpecManager.fetch_collaborators
        ["https://github.com/o/good", "https://github.com/o/bad"] Option.none).result =
      Except.ok (runBatch (sampleBackends.collabOutcome Option.none)
        ["https://github.com/o/good", "https://github.com/o/bad"]) ∧
    dictLookup "https://github.com/o/bad" (batchEntries (sampleBackends.collabOutcome Option.none)
        ["https://github.com/o/good", "https://github.com/o/bad"]) =
      Option.some (resultValue (sampleBackends.collabOutcome Option.none "https://github.com/o/bad")) ∧
    (sampleSpecManager.fetch_issues
        ["https://github.com/o/good", "https://github.com/o/bad"] Option.none Option.none).result =
      Except.ok (runBatch (sampleBackends.issuesOutcome Option.none Option.none)
        ["https://github.com/o/good", "https://github.com/o/bad"]) ∧
    dictLookup "https://github.com/o/bad"
        (batchEntries (sampleBackends.issuesOutcome Option.none Option.none)
          ["https://github.com/o/good", "https://github.com/o/bad"]) =
      Option.some (resultValue
        (sampleBackends.issuesOutcome Option.none Option.none "https://github.com/o/bad")) ∧
    (sampleSpecManager.fetch_pull_requests
        ["https://github.com/o/good", "https://github.com/o/bad"] Option.none Option.none).result =
      Except.ok (runBatch (sampleBackends.pullsOutcome Option.none Option.none)
        ["https://github.com/o/good", "https://github.com/o/bad"]) ∧
    dictLookup "https://github.com/o/bad"
        (batchEntries (sampleBackends.pullsOutcome Option.none Option.none)
          ["https://github.com/o/good", "https://github.com/o/bad"]) =
      Option.some (resultValue
        (sampleBackends.pullsOutcome Option.none Option.none "https://github.com/o/bad")) ∧
    (sampleSpecManager.fetch_code_reviews
        ["https://github.com/o/good", "https://github.com/o/bad"] Option.none).result =
      Except.ok (runBatch (sampleBackends.reviewsOutcome Option.none)
        ["https://github.com/o/good", "https://github.com/o/bad"]) ∧
    dictLookup "https://github.com/o/bad" (batchEntries (sampleBackends.reviewsOutcome Option.none)
        ["https://github.com/o/good", "https://github.com/o/bad"]) =
      Option.some (resultValue (sampleBackends.reviewsOutcome Option.none "https://github.com/o/bad")) ∧
    (sampleSpecManager.fetch_comments
        ["https://github.com/o/good", "https://github.com/o/bad"] Option.none Option.none).result =
      Except.ok (runBatch (sampleBackends.commentsOutcome Option.none Option.none)
        ["https://github.com/o/good", "https://github.com/o/bad"]) ∧
    dictLookup "https://github.com/o/bad"
        (batchEntries (sampleBackends.commentsOutcome Option.none Option.none)
          ["https://github.com/o/good", "https://github.com/o/bad"]) =
      Option.some (resultValue
        (sampleBackends.commentsOutcome Option.none Option.none "https://github.com/o/bad")) ∧
    (sampleSpecManager.analyze_branches
        ["https://github.com/o/good", "https://github.com/o/bad"]).result =
      Except.ok (runBatch sampleBackends.branchesOutcome
        ["https://github.com/o/good", "https://github.com/o/bad"]) ∧
    dictLookup "https://github.com/o/bad" (batchEntries sampleBackends.branchesOutcome
        ["https://github.com/o/good", "https://github.com/o/bad"]) =
      Option.some (resultValue (sampleBackends.branchesOutcome "https://github.com/o/bad")) :=
  batch_per_target_isolation sampleBackends sampleSpecManager rfl
    ["https://github.com/o/good", "https://github.com/o/bad"] "https://github.com/o/bad"
    (by decide) Option.none Option.none Option.none "boom" (PyValue.int 1)

/-- Claim C3: for any batch call over a URL list U on an initialized
manager, the key list of the returned mapping is exactly U, so its key
set equals U, for each of the six batch operations. -/
theorem batch_key_set
    (b : SpecBackends) (self : RepoManager)
    (h : self.rust_manager = Option.some (specRust b))
    (repo_urls : List String) (state : Option String) (max_pages : Option Nat)
    (comment_types : Option (List String)) (k : String) :
    (self.fetch_collaborators repo_urls max_pages).result =
      Except.ok (PyValue.dict (batchEntries (b.collabOutcome max_pages) repo_urls)) ∧
    dictKeys (batchEntries (b.collabOutcome max_pages) repo_urls) = repo_urls ∧
    (self.fetch_issues repo_urls state max_pages).result =
      Except.ok (PyValue.dict (batchEntries (b.issuesOutcome state max_pages) repo_urls)) ∧
    dictKeys (batchEntries (b.issuesOutcome state max_pages) repo_urls) = repo_urls ∧
    (self.fetch_pull_requests repo_urls state max_pages).result =
      Except.ok (PyValue.dict (batchEntries (b.pullsOutcome state max_pages) repo_urls)) ∧
    dictKeys (batchEntries (b.pullsOutcome state max_pages) repo_urls) = repo_urls ∧
    (self.fetch_code_reviews repo_urls max_pages).result =
      Except.ok (PyValue.dict (batchEntries (b.reviewsOutcome max_pages) repo_urls)) ∧
    dictKeys (batchEntries (b.reviewsOutcome max_pages) repo_urls) = repo_urls ∧
    (self.fetch_comments repo_urls comment_types max_pages).result =
      Except.ok (PyValue.dict (batchEntries (b.commentsOutcome comment_types max_pages) repo_urls)) ∧
    dictKeys (batchEntries (b.commentsOutcome comment_types max_pages) repo_urls) = repo_urls ∧
    (self.analyze_branches repo_urls).result =
      Except.ok (PyValue.dict (batchEntries b.branchesOutcome repo_urls)) ∧
    dictKeys (batchEntries b.branchesOutcome repo_urls) = repo_urls ∧
    (k ∈ dictKeys (batchEntries b.branchesOutcome repo_urls) ↔ k ∈ repo_urls) := by
  obtain ⟨rm⟩ := self
  cases rm with
  | none => exact Option.noConfusion h
  | some m0 =>
    have hm : m0 = specRust b := Option.some.injEq m0 (specRust b) ▸ h
    subst hm
    refine ⟨rfl, dictKeys_batchEntries _ _, rfl, dictKeys_batchEntries _ _,
      rfl, dictKeys_batchEntries _ _, rfl, dictKeys_batchEntries _ _,
      rfl, dictKeys_batchEntries _ _, rfl, dictKeys_batchEntries _ _, ?_⟩
    rw [dictKeys_batchEntries]

/-- Witness for claim C3 at the sample backends. -/
theorem batch_key_set_check :
    (sampleSpecManager.fetch_collaborators
        ["https://github.com/o/good", "https://github.com/o/bad"] Option.none).result =
      Except.ok (PyValue.dict (batchEntries (sampleBackends.collabOutcome Option.none)
        ["https://github.com/o/good", "https://github.com/o/bad"])) ∧
    dictKeys (batchEntries (sampleBackends.collabOutcome Option.none)
        ["https://github.com/o/good", "https://github.com/o/bad"]) =
      ["https://github.com/o/good", "https://github.com/o/bad"] ∧
    (sampleSpecManager.fetch_issues
        ["https://github.com/o/good", "https://github.com/o/bad"] Option.none Option.none).result =
      Except.ok (PyValue.dict (batchEntries (sampleBackends.issuesOutcome Option.none Option.none)
        ["https://github.com/o/good", "https://github.com/o/bad"])) ∧
    dictKeys (batchEntries (sampleBackends.issuesOutcome Option.none Option.none)
        ["https://github.com/o/good", "https://github.com/o/bad"]) =
      ["https://github.com/o/good", "https://github.com/o/bad"] ∧
    (sampleSpecManager.fetch_pull_requests
        ["https://github.com/o/good", "https://github.com/o/bad"] Option.none Option.none).result =
      Except.ok (PyValue.dict (batchEntries (sampleBackends.pullsOutcome Option.none Option.none)
        ["https://github.com/o/good", "https://github.com/o/bad"])) ∧
    dictKeys (batchEntries (sampleBackends.pullsOutcome Option.none Option.none)
        ["https://github.com/o/good", "https://github.com/o/bad"]) =
      ["https://github.com/o/good", "https://github.com/o/bad"] ∧
    (sampleSpecManager.fetch_code_reviews
        ["https://github.com/o/good", "https://github.com/o/bad"] Option.none).result =
      Except.ok (PyValue.dict (batchEntries (sampleBackends.reviewsOutcome Option.none)
        ["https://github.com/o/good", "https://github.com/o/bad"])) ∧
    dictKeys (batchEntries (sampleBackends.reviewsOutcome Option.none)
        ["https://github.com/o/good", "https://github.com/o/bad"]) =
      ["https://github.com/o/good", "https://github.com/o/bad"] ∧
    (sampleSpecManager.fetch_comments
        ["https://github.com/o/good", "https://github.com/o/bad"] Option.none Option.none).result =
      Except.ok (PyValue.dict (batchEntries (sampleBackends.commentsOutcome Option.none Option.none)
        ["https://github.com/o/good", "https://github.com/o/bad"])) ∧
    dictKeys (batchEntries (sampleBackends.commentsOutcome Option.none Option.none)
        ["https://github.com/o/good", "https://github.com/o/bad"]) =
      ["https://github.com/o/good", "https://github.com/o/bad"] ∧
    (sampleSpecManager.analyze_branches
        ["https://github.com/o/good", "https://github.com/o/bad"]).result =
      Except.ok (PyValue.dict (batchEntries sampleBackends.branchesOutcome
        ["https://github.com/o/good", "https://github.com/o/bad"])) ∧
    dictKeys (batchEntries sampleBackends.branchesOutcome
        ["https://github.com/o/good", "https://github.com/o/bad"]) =
      ["https://github.com/o/good", "https://github.com/o/bad"] ∧
    ("https://github.com/o/bad" ∈ dictKeys (batchEntries sampleBackends.branchesOutcome
        ["https://github.com/o/good", "https://github.com/o/bad"]) ↔
      "https://github.com/o/bad" ∈ ["https://github.com/o/good", "https://github.com/o/bad"]) :=
  batch_key_set sampleBackends sampleSpecManager rfl
    ["https://github.com/o/good", "https://github.com/o/bad"] Option.none Option.none
    Option.none "https://github.com/o/bad"

/-- Claim C5: on an initialized manager, bulk_blame returns without
raising a mapping keyed exactly by the requested file paths, in which
a path that does not resolve against HEAD carries an error string and
every other path carries its list of blame line records. -/
theorem bulk_blame_per_path_errors
    (b : SpecBackends) (self : RepoManager)
    (h : self.rust_manager = Option.some (specRust b))
    (repo_path : String) (file_paths : List String) (p : String)
    (hp : p ∈ file_paths) (ls : List BlameSourceLine) :
    (self.bulk_blame repo_path file_paths).result =
      Except.ok (runBatch (blameValue (b.repos repo_path)) file_paths) ∧
    dictKeys (batchEntries (blameValue (b.repos repo_path)) file_paths) = file_paths ∧
    dictLookup p (batchEntries (blameValue (b.repos repo_path)) file_paths) =
      Option.some (resultValue (blameValue (b.repos repo_path) p)) ∧
    ((b.repos repo_path).files p = Option.none →
      resultValue (blameValue (b.repos repo_path) p) =
        PyValue.str ("File not found: " ++ p)) ∧
    ((b.repos repo_path).files p = Option.some ls →
      resultValue (blameValue (b.repos repo_path) p) =
        encodeBlameList (blameRecords ls)) := by
  obtain ⟨rm⟩ := self
  cases rm with
  | none => exact Option.noConfusion h
  | some m0 =>
    have hm : m0 = specRust b := Option.some.injEq m0 (specRust b) ▸ h
    subst hm
    refine ⟨rfl, dictKeys_batchEntries _ _, dictLookup_batchEntries _ _ p hp,
      fun hmiss => ?_, fun hhit => ?_⟩
    · simp [resultValue, blameValue, blameFile, Except.map, hmiss]
    · simp [resultValue, blameValue, blameFile, Except.map, hhit]

/-- Witness for claim C5 at the sample repository: the README resolves,
a second requested path does not. -/
theorem bulk_blame_per_path_errors_check :
    (sampleSpecManager.bulk_blame "https://github.com/o/good" ["README.md", "missing.txt"]).result =
      Except.ok (runBatch (blameValue (sampleBackends.repos "https://github.com/o/good"))
        ["README.md", "missing.txt"]) ∧
    dictKeys (batchEntries (blameValue (sampleBackends.repos "https://github.com/o/good"))
        ["README.md", "missing.txt"]) = ["README.md", "missing.txt"] ∧
    dictLookup "missing.txt"
        (batchEntries (blameValue (sampleBackends.repos "https://github.com/o/good"))
          ["README.md", "missing.txt"]) =
      Option.some (resultValue
        (blameValue (sampleBackends.repos "https://github.com/o/good") "missing.txt")) ∧
    ((sampleBackends.repos "https://github.com/o/good").files "missing.txt" = Option.none →
      resultValue (blameValue (sampleBackends.repos "https://github.com/o/good") "missing.txt") =
        PyValue.str ("File not found: " ++ "missing.txt")) ∧
    ((sampleBackends.repos "https://github.com/o/good").files "missing.txt" =
        Option.some [sampleLine] →
      resultValue (blameValue (sampleBackends.repos "https://github.com/o/good") "missing.txt") =
        encodeBlameList (blameRecords [sampleLine])) :=
  bulk_blame_per_path_errors sampleBackends sampleSpecManager rfl
    "https://github.com/o/good" ["README.md", "missing.txt"] "missing.txt"
    (by decide) [sampleLine]

/-- Claim C4: any registry timeline for one URL that contains no new
clone call is a chain for the successor relation of the regex
Queued (Cloning p)* (Completed | Failed) starting from Queued (so the
phase never moves backwards, progress is non-decreasing, and a
terminal state only repeats itself); lower progress updates are
dropped; Completed and Failed are unchanged by every event other than
a new clone call, which resets them to Queued. -/
theorem clone_timeline_wellformed (es : List CloneEvent)
    (h : CloneEvent.newCloneCall ∉ es) (p q : Nat) (hq : q < p)
    (path msg : String) (e : CloneEvent) (he : e ≠ CloneEvent.newCloneCall) :
    List.Chain follows CloneState.queued (statesAfter CloneState.queued es) ∧
    applyEvent (CloneState.cloning p) (CloneEvent.progressUpdate q) = CloneState.cloning p ∧
    applyEvent (CloneState.completed path) e = CloneState.completed path ∧
    applyEvent (CloneState.failed msg) e = CloneState.failed msg ∧
    applyEvent (CloneState.completed path) CloneEvent.newCloneCall = CloneState.queued ∧
    applyEvent (CloneState.failed msg) CloneEvent.newCloneCall = CloneState.queued := by
  refine ⟨chain_statesAfter CloneState.queued es h, by simp [applyEvent, hq], ?_, ?_, rfl, rfl⟩
  · cases e <;> simp_all [applyEvent]
  · cases e <;> simp_all [applyEvent]

/-- Witness for claim C4 on a concrete successful clone timeline. -/
theorem clone_timeline_wellformed_check :
    List.Chain follows CloneState.queued
      (statesAfter CloneState.queued
        [CloneEvent.startCloning, CloneEvent.progressUpdate 40, CloneEvent.progressUpdate 80,
          CloneEvent.finishSuccess "scratch"]) ∧
    applyEvent (CloneState.cloning 5) (CloneEvent.progressUpdate 3) = CloneState.cloning 5 ∧
    applyEvent (CloneState.completed "scratch") CloneEvent.startCloning =
      CloneState.completed "scratch" ∧
    applyEvent (CloneState.failed "err") CloneEvent.startCloning = CloneState.failed "err" ∧
    applyEvent (CloneState.completed "scratch") CloneEvent.newCloneCall = CloneState.queued ∧
    applyEvent (CloneState.failed "err") CloneEvent.newCloneCall = CloneState.queued :=
  clone_timeline_wellformed
    [CloneEvent.startCloning, CloneEvent.progressUpdate 40, CloneEvent.progressUpdate 80,
      CloneEvent.finishSuccess "scratch"]
    (by decide) 5 3 (by decide) "scratch" "err" CloneEvent.startCloning (by decide)

/-- Claim C6: the Commit Walker output is sorted by author timestamp
descending with ties broken by SHA, it is a permutation of the walked
records, and whenever SHAs identify records uniquely the output is the
same for every discovery order of the same clone. -/
theorem analyze_commits_deterministic_order
    (l l2 : List CommitRecord) (hp : l.Perm l2)
    (hinj : ∀ a ∈ l, ∀ b ∈ l, a.sha = b.sha → a = b) :
    (sortCommits l).Sorted commitBefore ∧
    (sortCommits l).Perm l ∧
    sortCommits l = sortCommits l2 := by
  refine ⟨List.sorted_insertionSort commitBefore l, List.perm_insertionSort commitBefore l, ?_⟩
  have hperm : (sortCommits l).Perm (sortCommits l2) :=
    ((List.perm_insertionSort commitBefore l).trans hp).trans
      (List.perm_insertionSort commitBefore l2).symm
  refine sorted_perm_shaInj_eq hperm (List.sorted_insertionSort commitBefore l)
    (List.sorted_insertionSort commitBefore l2) fun a ha b hb hs => ?_
  have ha2 : a ∈ l := (List.perm_insertionSort commitBefore l).mem_iff.mp ha
  have hb2 : b ∈ l := (List.perm_insertionSort commitBefore l).mem_iff.mp hb
  exact hinj a ha2 b hb2 hs

/-- Witness for claim C6 on two discovery orders of three records with
one timestamp tie. -/
theorem analyze_commits_deterministic_order_check :
    (sortCommits [mkCommit "b" 5, mkCommit "a" 5, mkCommit "c" 9]).Sorted commitBefore ∧
    (sortCommits [mkCommit "b" 5, mkCommit "a" 5, mkCommit "c" 9]).Perm
      [mkCommit "b" 5, mkCommit "a" 5, mkCommit "c" 9] ∧
    sortCommits [mkCommit "b" 5, mkCommit "a" 5, mkCommit "c" 9] =
      sortCommits [mkCommit "c" 9, mkCommit "a" 5, mkCommit "b" 5] :=
  analyze_commits_deterministic_order
    [mkCommit "b" 5, mkCommit "a" 5, mkCommit "c" 9]
    [mkCommit "c" 9, mkCommit "a" 5, mkCommit "b" 5]
    (by decide) (by decide)

/-- Claim C7: for every file resolved by the Blame Engine, the blame
succeeds with one record per line, the final line numbers in list
order are exactly 1, 2, up to the number of lines (hence strictly
ascending and a contiguous 1-based cover of the file). -/
theorem blame_line_numbers_contiguous
    (repo : GitRepo) (path : String) (ls : List BlameSourceLine) (r : Nat)
    (hres : repo.files path = Option.some ls) :
    blameFile repo path = Except.ok (blameRecords ls) ∧
    (blameRecords ls).length = ls.length ∧
    (blameRecords ls).map (fun rec => rec.final_line_no) = List.range' 1 ls.length ∧
    List.Pairwise (fun a b => a < b)
      ((blameRecords ls).map fun rec => rec.final_line_no) ∧
    (r ∈ (blameRecords ls).map (fun rec => rec.final_line_no) ↔ 1 ≤ r ∧ r ≤ ls.length) := by
  refine ⟨by simp [blameFile, hres], blameFrom_length 1 ls, blameFrom_map_final 1 ls, ?_, ?_⟩
  · rw [blameRecords, blameFrom_map_final 1 ls]
    exact List.pairwise_lt_range' 1 ls.length
  · rw [blameRecords, blameFrom_map_final 1 ls, List.mem_range'_1]
    omega

/-- Witness for claim C7 on a two-line file. -/
theorem blame_line_numbers_contiguous_check :
    blameFile sampleTwoLineRepo "main.py" = Except.ok (blameRecords [sampleLine, sampleLine]) ∧
    (blameRecords [sampleLine, sampleLine]).length = ([sampleLine, sampleLine] : List BlameSourceLine).length ∧
    (blameRecords [sampleLine, sampleLine]).map (fun rec => rec.final_line_no) =
      List.range' 1 ([sampleLine, sampleLine] : List BlameSourceLine).length ∧
    List.Pairwise (fun a b => a < b)
      ((blameRecords [sampleLine, sampleLine]).map fun rec => rec.final_line_no) ∧
    (2 ∈ (blameRecords [sampleLine, sampleLine]).map (fun rec => rec.final_line_no) ↔
      1 ≤ 2 ∧ 2 ≤ ([sampleLine, sampleLine] : List BlameSourceLine).length) :=
  blame_line_numbers_contiguous sampleTwoLineRepo "main.py" [sampleLine, sampleLine] 2 (by decide)

/-- Claim C8: the pagination loop with max_pages = k collects at most
k pages per URL, hence issues at most k pagination requests (it
collects exactly the first k pages when more exist), and with
max_pages = None it continues until the server reports no next page,
collecting every page. -/
theorem pagination_respects_max_pages (pages : List (List PyValue)) (k : Nat) :
    (paginate pages (Option.some k)).length ≤ k ∧
    paginate pages (Option.some k) = pages.take k ∧
    paginate pages Option.none = pages :=
  ⟨paginate_length_le pages k, paginate_take pages k, paginate_unbounded pages⟩

/-- Claim C9: setup_async marks the runtime initialized and raises
nothing, and a second call starting from the state the first call
produced returns that state unchanged with the same non-raising
result, so repeated calls are interchangeable with a single one. -/
theorem setup_async_idempotent (st : AsyncRuntimeState) :
    (setup_async st).1.initialized = true ∧
    (setup_async st).2 = Except.ok PyValue.none ∧
    setup_async (setup_async st).1 = setup_async st :=
  ⟨rfl, rfl, rfl⟩

end Gradelib
